import Mathlib

/-!
Verification of the sanitization engine (`src/wiping.py`) and the certificate
issuance pipeline (`src/wipe_certificates/` and `src/certificate.py`) of the
SIH25070 secure-wipe repository, as a shallow embedding in Lean 4.

External command execution is modelled by an oracle deciding each command's
outcome from the invocation history; the filesystem is modelled as a partial
map from path strings to file data.  Wall-clock timestamp fields of the wipe
report are not modelled (real time); all list- and status-valued fields are.
-/

namespace Wiping

/-- Outcome of one external command, as decided by the environment. -/
inductive CmdResult
  | ok
  | err
  | timeout
deriving DecidableEq, Repr

/-- Python-level exceptions raised by the wipe thread.
`calledProcessError` models `subprocess.CalledProcessError` raised by
`_run_command` on non-zero exit; `timeoutExpired` models
`subprocess.TimeoutExpired`; `error` models a plain `Exception(msg)`. -/
inductive PyErr
  | calledProcessError (argv : List String)
  | timeoutExpired (argv : List String)
  | error (msg : String)
deriving DecidableEq, Repr

/-- The trace of dispatched external commands: each entry is the device path
the dispatch was for, paired with the exact argument vector executed. -/
abbrev Trace := List (String × List String)

/-- The environment: given the invocation history and the argument vector,
decide how this command exits. -/
abbrev Oracle := Trace → List String → CmdResult

/-- What `os.stat` finds at a path: missing, a block-special file, or some
other (non-block) file. -/
inductive PathStat
  | absent
  | blockDev
  | otherFile
deriving DecidableEq, Repr

/-- Embedding of `WipeThread._run_command`: execute the command, record it in
the trace, and raise `CalledProcessError` on non-zero exit.  `devPath` is the
device the surrounding dispatch is for (instrumentation only). -/
def runCommand (oracle : Oracle) (devPath : String) (tr : Trace)
    (argv : List String) : Trace × Except PyErr Unit :=
  match oracle tr argv with
  | .ok => (tr ++ [(devPath, argv)], .ok ())
  | .err => (tr ++ [(devPath, argv)], .error (.calledProcessError argv))
  | .timeout => (tr ++ [(devPath, argv)], .error (.timeoutExpired argv))

/-- Auxiliary contiguous-substring test on character lists. -/
def infixAux (pat : List Char) : List Char → Bool
  | [] => pat.isEmpty
  | c :: rest => pat.isPrefixOf (c :: rest) || infixAux pat rest

/-- Substring test, embedding Python's `'pat' in s`. -/
def strContains (s pat : String) : Bool :=
  infixAux pat.toList s.toList

/-- Embedding of `os.path.basename`: the part after the last slash. -/
def basename (p : String) : String :=
  String.mk (p.toList.foldl (fun acc c => if c = '/' then [] else acc ++ [c]) [])

/-- Embedding of Python's `str.strip()`: drop surrounding whitespace. -/
def pyStrip (s : String) : String :=
  String.mk
    (((s.toList.dropWhile Char.isWhitespace).reverse.dropWhile
      Char.isWhitespace).reverse)

/-- The sysfs rotational indicator path read by `_wipe_device`. -/
def rotPath (p : String) : String :=
  "/sys/block/" ++ basename p ++ "/queue/rotational"

/-- Contents of readable files outside the block devices themselves (the
rotational sysfs entries); `none` means the `open`/`read` raises. -/
abbrev RotFS := String → Option String

/-- Python dict update `d[k] = v` on an insertion-ordered association list. -/
def dictSet (d : List (String × String)) (k v : String) :
    List (String × String) :=
  if d.any (fun kv => kv.1 == k) then
    d.map (fun kv => if kv.1 == k then (k, v) else kv)
  else d ++ [(k, v)]

/-- Argument vector of the NVMe cryptographic sanitize attempt. -/
def sanitizeArgv (p : String) : List String :=
  ["nvme", "sanitize", p, "-a", "2"]

/-- Argument vector of the NVMe format fallback. -/
def formatArgv (p : String) : List String :=
  ["nvme", "format", p, "-s", "1"]

/-- Argument vector of the ATA security-set-pass step. -/
def setPassArgv (p : String) : List String :=
  ["hdparm", "--user-master", "user", "--security-set-pass", "p", p]

/-- Argument vector of the ATA security-erase step. -/
def eraseArgv (p : String) : List String :=
  ["hdparm", "--user-master", "user", "--security-erase", "p", p]

/-- Argument vector of the ATA security-disable step. -/
def disableArgv (p : String) : List String :=
  ["hdparm", "--user-master", "user", "--security-disable", "p", p]

/-- Argument vector of the overwrite fallback, exactly as built by
`_wipe_with_shred`: wrapped in `stdbuf -oL`, with the pass count the literal
string `"2"`. -/
def shredArgv (p : String) : List String :=
  ["stdbuf", "-oL", "shred", "-n", "2", "-v", "-z", p]

/-- Embedding of `WipeThread._wipe_sata_secure_erase`: set a transient
password, issue the erase (a timeout is treated as "in progress, assume
success"), and on any other erase failure issue security-disable before
re-raising.  A set-pass failure propagates directly. -/
def wipeSataSecureErase (oracle : Oracle) (p : String) (tr : Trace) :
    Trace × Except PyErr Unit :=
  match runCommand oracle p tr (setPassArgv p) with
  | (tr1, .error e) => (tr1, .error e)
  | (tr1, .ok _) =>
    match runCommand oracle p tr1 (eraseArgv p) with
    | (tr2, .ok _) => (tr2, .ok ())
    | (tr2, .error (.timeoutExpired _)) => (tr2, .ok ())
    | (tr2, .error e) =>
      match runCommand oracle p tr2 (disableArgv p) with
      | (tr3, .ok _) => (tr3, .error e)
      | (tr3, .error e3) => (tr3, .error e3)

/-- Embedding of `WipeThread._wipe_with_shred`. -/
def wipeWithShred (oracle : Oracle) (p : String) (tr : Trace) :
    Trace × Except PyErr Unit :=
  runCommand oracle p tr (shredArgv p)

/-- Embedding of `WipeThread._wipe_device`: dispatch by device-name
convention.  NVMe: sanitize then format, no overwrite fallback.  SATA-like:
if the rotational indicator reads as non-rotational, attempt ATA secure
erase; on its success return, otherwise (rotational, unreadable indicator, or
secure-erase failure) fall back to shred.  Anything else raises
"Unsupported device type".  Returns the extended trace, the updated
`methods_used` map and the outcome. -/
def wipeDevice (oracle : Oracle) (rot : RotFS) (passes : Nat) (p : String)
    (tr : Trace) (methods : List (String × String)) :
    Trace × List (String × String) × Except PyErr Unit :=
  if strContains p "nvme" then
    match runCommand oracle p tr (sanitizeArgv p) with
    | (tr1, .ok _) =>
      (tr1, dictSet methods p "NVMe Sanitize (Cryptographic Erase)", .ok ())
    | (tr1, .error _) =>
      match runCommand oracle p tr1 (formatArgv p) with
      | (tr2, .ok _) =>
        (tr2, dictSet methods p "NVMe Format (User Data Erase)", .ok ())
      | (tr2, .error _) =>
        (tr2, methods, .error (.error ("NVMe Format also failed on " ++ p)))
  else if strContains p "sd" then
    -- the `try` block: read the rotational indicator and, for an SSD,
    -- attempt secure erase; any exception falls through to shred
    let attempt : Trace × Bool :=
      match rot (rotPath p) with
      | none => (tr, false)
      | some content =>
        if pyStrip content == "1" then (tr, false)
        else
          match wipeSataSecureErase oracle p tr with
          | (tr1, .ok _) => (tr1, true)
          | (tr1, .error _) => (tr1, false)
    match attempt with
    | (tr1, true) => (tr1, dictSet methods p "ATA Secure Erase", .ok ())
    | (tr1, false) =>
      match wipeWithShred oracle p tr1 with
      | (tr2, .ok _) =>
        (tr2, dictSet methods p (toString passes ++ "-Pass Overwrite (shred)"),
          .ok ())
      | (tr2, .error e) => (tr2, methods, .error e)
  else
    (tr, methods, .error (.error ("Unsupported device type for " ++ p)))

/-- The device categories of the dispatch, by the name conventions of
`_wipe_device` (the `'nvme' in path` test is made first). -/
inductive Category
  | nvme
  | sata
  | other
deriving DecidableEq, Repr

/-- Category of a device path, exactly as `_wipe_device` branches. -/
def category (p : String) : Category :=
  if strContains p "nvme" then .nvme
  else if strContains p "sd" then .sata
  else .other

/-- The destructive methods of the cascade, abstracting over the individual
commands (the three hdparm steps together realize one ATA secure-erase
attempt). -/
inductive Method
  | sanitize
  | format
  | secureErase
  | overwrite
deriving DecidableEq, Repr

/-- Which cascade method an argument vector belongs to. -/
def methodOfArgv : List String → Option Method
  | "nvme" :: "sanitize" :: _ => some .sanitize
  | "nvme" :: "format" :: _ => some .format
  | "hdparm" :: _ => some .secureErase
  | "stdbuf" :: _ => some .overwrite
  | _ => none

/-- Collapse adjacent duplicates (the hdparm steps of one secure-erase
attempt count as a single method attempt). -/
def dedupAdj : List Method → List Method
  | [] => []
  | [a] => [a]
  | a :: b :: rest =>
    if a = b then dedupAdj (b :: rest) else a :: dedupAdj (b :: rest)

/-- The sequence of destructive methods attempted in a trace. -/
def attempts (tr : Trace) : List Method :=
  dedupAdj (tr.filterMap (fun e => methodOfArgv e.2))

/-- The six argument-vector shapes the dispatcher can emit for a device. -/
def cmdShapes (p : String) : List (List String) :=
  [sanitizeArgv p, formatArgv p, setPassArgv p, eraseArgv p, disableArgv p,
    shredArgv p]

/-- Whether the cooperative cancellation flag is already cleared when the
loop reaches iteration `i` (the flag is monotone: once cleared it stays so). -/
def cancelled (cancelAt : Option Nat) (i : Nat) : Bool :=
  match cancelAt with
  | none => false
  | some c => decide (c ≤ i)

/-- The device-loop body of `WipeThread.run`: per device check cancellation,
the presence of a (non-empty) `name`, and that the path is an existing
block-special file, then dispatch; append the path to the success list.  Any
raised exception aborts the remainder. -/
def runLoop (oracle : Oracle) (rot : RotFS) (passes : Nat)
    (fs : String → PathStat) (cancelAt : Option Nat) :
    List (Option String) → Nat → Trace → List String →
    List (String × String) →
    Trace × List String × List (String × String) × Except PyErr Unit
  | [], _, tr, wiped, methods => (tr, wiped, methods, .ok ())
  | d :: rest, i, tr, wiped, methods =>
    if cancelled cancelAt i then
      (tr, wiped, methods,
        .error (.error "Wipe process was cancelled by the user."))
    else
      match d with
      | none =>
        (tr, wiped, methods,
          .error (.error "Could not find device path in device data."))
      | some p =>
        if p = "" then
          (tr, wiped, methods,
            .error (.error "Could not find device path in device data."))
        else
          match fs p with
          | .absent =>
            (tr, wiped, methods,
              .error (.error ("Device path " ++ p ++ " does not exist.")))
          | .otherFile =>
            (tr, wiped, methods,
              .error (.error ("Path " ++ p ++
                " is not a block device. Halting for safety.")))
          | .blockDev =>
            match wipeDevice oracle rot passes p tr methods with
            | (tr1, m1, .error e) => (tr1, wiped, m1, .error e)
            | (tr1, m1, .ok _) =>
              runLoop oracle rot passes fs cancelAt rest (i + 1) tr1
                (wiped ++ [p]) m1

/-- The wipe report assembled by `_generate_report` (wall-clock time fields
omitted: not modelled). -/
structure Report where
  devicesTargeted : List (Option String)
  devicesWiped : List String
  status : String
  message : String
  methodsUsed : List (String × String)
deriving DecidableEq, Repr

/-- Everything `WipeThread.run` produces: the command trace, the report, and
the payload of the `finished` signal. -/
structure RunOutput where
  trace : Trace
  report : Report
  emittedSuccess : Bool
  emittedMessage : String
deriving DecidableEq, Repr

/-- Rendering of a raised exception as interpolated into
`f"An error occurred: {e}"`. -/
def errText : PyErr → String
  | .calledProcessError argv =>
    "Command '" ++ String.intercalate " " argv ++ "' failed."
  | .timeoutExpired argv =>
    "Command '" ++ String.intercalate " " argv ++ "' timed out."
  | .error msg => msg

/-- Embedding of `WipeThread.run` for a job over `devices` (each entry is the
dict's `.get('name')`): run the loop, then build the report and emit
`finished`. -/
def run (oracle : Oracle) (rot : RotFS) (passes : Nat)
    (fs : String → PathStat) (cancelAt : Option Nat)
    (devices : List (Option String)) : RunOutput :=
  match runLoop oracle rot passes fs cancelAt devices 0 [] [] [] with
  | (tr, wiped, methods, .ok _) =>
    { trace := tr
      report :=
        { devicesTargeted := devices
          devicesWiped := wiped
          status := "Success"
          message := "Wipe completed successfully."
          methodsUsed := methods }
      emittedSuccess := true
      emittedMessage := "Success" }
  | (tr, wiped, methods, .error e) =>
    { trace := tr
      report :=
        { devicesTargeted := devices
          devicesWiped := wiped
          status := "Failed"
          message := "An error occurred: " ++ errText e
          methodsUsed := methods }
      emittedSuccess := false
      emittedMessage := "An error occurred: " ++ errText e }

end Wiping

namespace Certs

/-- JSON-like values, preserving object key insertion order (Python dicts). -/
inductive JVal
  | str (s : String)
  | num (n : Int)
  | bool (b : Bool)
  | null
  | arr (xs : List JVal)
  | obj (kvs : List (String × JVal))

/-- Character escaping of Python's `json.dump` string encoder (model). -/
def jsonEscape (s : String) : String :=
  String.join (s.toList.map (fun c =>
    if c = '"' then "\\\""
    else if c = '\\' then "\\\\"
    else if c = '\n' then "\\n"
    else if c = '\t' then "\\t"
    else if c = '\r' then "\\r"
    else String.singleton c))

/-- A run of `n` spaces. -/
def spaces (n : Nat) : String :=
  String.mk (List.replicate n ' ')

mutual

/-- Serializer modelling `json.dump(data, f, indent=4)` at indent level
`ind`: deterministic, insertion-ordered object keys, 4-space indentation. -/
def dumpVal : JVal → Nat → String
  | .str s, _ => "\"" ++ jsonEscape s ++ "\""
  | .num n, _ => toString n
  | .bool true, _ => "true"
  | .bool false, _ => "false"
  | .null, _ => "null"
  | .arr [], _ => "[]"
  | .arr (x :: xs), ind =>
    "[\n" ++ dumpItems (x :: xs) (ind + 4) ++ "\n" ++ spaces ind ++ "]"
  | .obj [], _ => "\x7b\x7d"
  | .obj (kv :: kvs), ind =>
    "\x7b\n" ++ dumpPairs (kv :: kvs) (ind + 4) ++ "\n" ++ spaces ind ++ "\x7d"

/-- Array elements, comma-separated, one per line. -/
def dumpItems : List JVal → Nat → String
  | [], _ => ""
  | [x], ind => spaces ind ++ dumpVal x ind
  | x :: y :: rest, ind =>
    spaces ind ++ dumpVal x ind ++ ",\n" ++ dumpItems (y :: rest) ind

/-- Object entries, comma-separated, one per line. -/
def dumpPairs : List (String × JVal) → Nat → String
  | [], _ => ""
  | [(k, v)], ind =>
    spaces ind ++ "\"" ++ jsonEscape k ++ "\": " ++ dumpVal v ind
  | (k, v) :: kv :: rest, ind =>
    spaces ind ++ "\"" ++ jsonEscape k ++ "\": " ++ dumpVal v ind ++ ",\n" ++
      dumpPairs (kv :: rest) ind

end

/-- Python dict assignment `data[k] = v` on an insertion-ordered
association list: update in place if the key exists, else append. -/
def objSet (kvs : List (String × JVal)) (k : String) (v : JVal) :
    List (String × JVal) :=
  if kvs.any (fun kv => kv.1 == k) then
    kvs.map (fun kv => if kv.1 == k then (k, v) else kv)
  else kvs ++ [(k, v)]

/-- Contents of a file in the certificate pipeline's working directory. -/
inductive FileData
  /-- The PKCS#12 signing-identity bundle; `seed` is the entropy drawn by
  `create_p12`'s key generation, so distinct provisionings have distinct
  key material. -/
  | p12 (seed : Nat)
  /-- A plain text file (the persisted JSON report bytes). -/
  | jsonText (s : String)
  /-- The unsigned rendered report (`generate_pdf` output for `d`). -/
  | unsignedPdf (d : List (String × JVal))
  /-- The signed report: the document for `d` signed by identity `seed`. -/
  | signedPdf (d : List (String × JVal)) (seed : Nat)
  /-- An output file created by the signer before it failed partway. -/
  | partialPdf

/-- Filesystem: partial map from paths to file contents. -/
def FS : Type := String → Option FileData

/-- Write (create or truncate-and-overwrite) a file. -/
def FS.write (fs : FS) (p : String) (v : FileData) : FS :=
  fun q => if q = p then some v else fs q

/-- `os.remove`. -/
def FS.del (fs : FS) (p : String) : FS :=
  fun q => if q = p then none else fs q

/-- How far the signing step gets before raising, distinguishing the wrong
passphrase (`loadFail`), a failure before the output file is opened
(`prepFail`), and a failure after the output file was created
(`writeFail`). -/
inductive SignOutcome
  | loadFail
  | prepFail
  | writeFail
  | ok
deriving DecidableEq

/-- Embedding of `pdf_signer.sign_pdf`: load the signer from the PKCS#12
bundle, open the input, open the output for writing and sign.  Every
exception is caught: the function returns `none` instead of raising, with
an error line printed.  Returns (filesystem, returned path, printed log). -/
def sign_pdf (outcome : SignOutcome) (inputPdf outputPdf p12File : String)
    (fs : FS) : FS × Option String × List String :=
  match fs p12File with
  | some (.p12 seed) =>
    match outcome with
    | .loadFail => (fs, none, ["❌ Error signing PDF: load_pkcs12 failed"])
    | _ =>
      match fs inputPdf with
      | some (.unsignedPdf d) =>
        match outcome with
        | .prepFail => (fs, none, ["❌ Error signing PDF: signer failed"])
        | .writeFail =>
          (fs.write outputPdf .partialPdf, none,
            ["❌ Error signing PDF: signer failed"])
        | _ =>
          (fs.write outputPdf (.signedPdf d seed), some outputPdf,
            ["✅ Successfully signed " ++ inputPdf ++ " -> " ++ outputPdf])
      | _ => (fs, none, ["❌ Error signing PDF: cannot read input"])
  | _ => (fs, none, ["❌ Error signing PDF: load_pkcs12 failed"])

/-- Path of the persisted JSON report for a report uuid. -/
def jsonPath (u : String) : String :=
  "json_reports/sanitization_report_" ++ (u ++ ".json")

/-- Path of the unsigned rendered document for a report uuid. -/
def unsignedPath (u : String) : String :=
  "pdf_reports/unsigned_report_" ++ (u ++ ".pdf")

/-- Path of the final signed document for a report uuid. -/
def signedPath (u : String) : String :=
  "pdf_reports/sanitization_report_" ++ (u ++ ".pdf")

/-- Environment of one `richa` invocation: how far signing gets, and the
entropy `create_p12` would draw if identity provisioning runs. -/
structure Env where
  signOutcome : SignOutcome
  p12Seed : Nat

/-- Result of `richa`: final filesystem, printed log, and the (exception)
outcome of the call itself. -/
structure RichaOut where
  fs : FS
  log : List String
  result : Except String Unit

/-- Embedding of `create_p12`: generate fresh key material (drawing `seed`
from the entropy source), build the self-signed certificate and serialize
the bundle. -/
def create_p12 (seed : Nat) : FileData := .p12 seed

/-- The identity-provisioning step of `richa` (main.py lines 32-38): create
the PKCS#12 bundle only if no file exists at the configured path. -/
def ensure_identity (seed : Nat) (p12File : String) (fs : FS) :
    FS × List String :=
  match fs p12File with
  | none =>
    (FS.write fs p12File (create_p12 seed),
      ["✓ Certificate created: " ++ p12File])
  | some _ =>
    (fs, ["[0] Certificate already exists: " ++ p12File ++
      ", skipping creation"])

/-- Embedding of `wipe_certificates.main.richa`: provision the signing
identity if absent (`create_p12`), attach `report_uuid` to the data, persist
the JSON report, render the unsigned document, sign, and delete the unsigned
document only if the signed document exists; finally print the success line
unconditionally. -/
def richa (env : Env) (p12File : String) (data : List (String × JVal))
    (reportUuid : String) (fs : FS) : RichaOut :=
  let step0 : FS × List String := ensure_identity env.p12Seed p12File fs
  let data1 := objSet data "report_uuid" (.str reportUuid)
  let fs2 := step0.1.write (jsonPath reportUuid)
    (.jsonText (dumpVal (.obj data1) 0))
  let log2 := step0.2 ++ ["✓ JSON saved with UUID: " ++ jsonPath reportUuid]
  let fs3 := fs2.write (unsignedPath reportUuid) (.unsignedPdf data1)
  let log3 := log2 ++ ["✓ PDF generated: " ++ unsignedPath reportUuid]
  let sres := sign_pdf env.signOutcome (unsignedPath reportUuid)
    (signedPath reportUuid) p12File fs3
  let step5 : FS × List String :=
    match sres.1 (signedPath reportUuid) with
    | some _ =>
      (FS.del sres.1 (unsignedPath reportUuid),
        ["✓ Unsigned PDF deleted: " ++ unsignedPath reportUuid])
    | none => (sres.1, [])
  { fs := step5.1
    log := log3 ++ sres.2.2 ++ step5.2 ++
      ["✓ PDF signed successfully: " ++ signedPath reportUuid]
    result := .ok () }

end Certs

namespace Wiping

/-- An environment in which every external command succeeds. -/
def oracleAllOk : Oracle := fun _ _ => .ok

/-- An environment in which every external command fails. -/
def oracleAllFail : Oracle := fun _ _ => .err

/-- An environment in which the security-set-pass step for `/dev/sda`
fails and everything else succeeds. -/
def oracleSetPassFail : Oracle := fun _ argv =>
  if argv = setPassArgv "/dev/sda" then .err else .ok

/-- An environment in which the security-erase step for `/dev/sda` fails
and everything else succeeds. -/
def oracleEraseFail : Oracle := fun _ argv =>
  if argv = eraseArgv "/dev/sda" then .err else .ok

/-- A sysfs in which `/dev/sda` reads as rotational. -/
def rotHdd : RotFS := fun q =>
  if q = rotPath "/dev/sda" then some "1" else none

/-- A sysfs in which `/dev/sda` reads as non-rotational. -/
def rotSsd : RotFS := fun q =>
  if q = rotPath "/dev/sda" then some "0" else none

/-- A filesystem in which `/dev/sda` is a block device and nothing else
exists. -/
def fsBlkSda : String → PathStat := fun p =>
  if p = "/dev/sda" then .blockDev else .absent

/-- A filesystem in which `/dev/nvme0n1` is a block device and nothing else
exists. -/
def fsBlkNvme : String → PathStat := fun p =>
  if p = "/dev/nvme0n1" then .blockDev else .absent

/-- A filesystem in which `/dev/sda` exists but is a regular file. -/
def fsOtherSda : String → PathStat := fun p =>
  if p = "/dev/sda" then .otherFile else .absent

end Wiping

namespace Certs

/-- The empty filesystem. -/
def fsEmpty : FS := fun _ => none

/-- A small concrete certificate data dictionary. -/
def dSample : List (String × JVal) :=
  [("personPerformingSanitization", .obj [("name", .str "Operator")])]

end Certs
namespace Wiping

theorem runCommand_ok {oracle : Oracle} {tr : Trace} {argv : List String}
    (p : String) (h : oracle tr argv = .ok) :
    runCommand oracle p tr argv = (tr ++ [(p, argv)], .ok ()) := by
  simp [runCommand, h]

theorem runCommand_err {oracle : Oracle} {tr : Trace} {argv : List String}
    (p : String) (h : oracle tr argv = .err) :
    runCommand oracle p tr argv =
      (tr ++ [(p, argv)], .error (.calledProcessError argv)) := by
  simp [runCommand, h]

theorem sse_cases (oracle : Oracle) (p : String) (tr : Trace) :
    (∃ e, wipeSataSecureErase oracle p tr =
        (tr ++ [(p, setPassArgv p)], .error e)) ∨
    wipeSataSecureErase oracle p tr =
      (tr ++ [(p, setPassArgv p), (p, eraseArgv p)], .ok ()) ∨
    (∃ e, wipeSataSecureErase oracle p tr =
        (tr ++ [(p, setPassArgv p), (p, eraseArgv p), (p, disableArgv p)],
          .error e)) := by
  unfold wipeSataSecureErase
  cases h1 : oracle tr (setPassArgv p) <;> simp [runCommand, h1]
  case ok =>
    cases h2 : oracle (tr ++ [(p, setPassArgv p)]) (eraseArgv p) <;>
      simp [h2]
    case err =>
      cases h3 : oracle (tr ++ [(p, setPassArgv p), (p, eraseArgv p)])
          (disableArgv p) <;> simp [h3]

end Wiping
namespace Wiping

theorem wipeWithShred_eq (oracle : Oracle) (p : String) (tr : Trace) :
    ∃ r, wipeWithShred oracle p tr = (tr ++ [(p, shredArgv p)], r) := by
  unfold wipeWithShred
  cases h : oracle tr (shredArgv p) <;> simp [runCommand, h]

theorem wipeDevice_trace (oracle : Oracle) (rot : RotFS) (passes : Nat)
    (p : String) (tr : Trace) (methods : List (String × String)) :
    ∃ δ, (wipeDevice oracle rot passes p tr methods).1 = tr ++ δ ∧
      ∀ e ∈ δ, e.1 = p ∧ e.2 ∈ cmdShapes p := by
  unfold wipeDevice
  by_cases hn : strContains p "nvme"
  · cases h1 : oracle tr (sanitizeArgv p) with
    | ok =>
      refine ⟨[(p, sanitizeArgv p)], ?_, ?_⟩
      · simp [runCommand, h1, hn]
      · simp [cmdShapes]
    | err =>
      cases h2 : oracle (tr ++ [(p, sanitizeArgv p)]) (formatArgv p) <;>
        exact ⟨[(p, sanitizeArgv p), (p, formatArgv p)],
          by simp [runCommand, h1, h2, hn],
          by simp [cmdShapes]⟩
    | timeout =>
      cases h2 : oracle (tr ++ [(p, sanitizeArgv p)]) (formatArgv p) <;>
        exact ⟨[(p, sanitizeArgv p), (p, formatArgv p)],
          by simp [runCommand, h1, h2, hn],
          by simp [cmdShapes]⟩
  · by_cases hs : strContains p "sd"
    · simp only [hn, hs, if_false, if_true, Bool.false_eq_true]
      cases hr : rot (rotPath p) with
      | none =>
        rcases wipeWithShred_eq oracle p tr with ⟨r, hw⟩
        cases r <;>
          exact ⟨[(p, shredArgv p)], by simp [hr, hw], by simp [cmdShapes]⟩
      | some content =>
        by_cases hh : pyStrip content == "1"
        · rcases wipeWithShred_eq oracle p tr with ⟨r, hw⟩
          cases r <;>
            exact ⟨[(p, shredArgv p)], by simp [hr, hw, hh], by simp [cmdShapes]⟩
        · rcases sse_cases oracle p tr with ⟨e, hsse⟩ | hsse | ⟨e, hsse⟩
          · rcases wipeWithShred_eq oracle p (tr ++ [(p, setPassArgv p)]) with ⟨r, hw⟩
            cases r <;>
              exact ⟨[(p, setPassArgv p), (p, shredArgv p)],
                by simp [hr, hh, hsse, hw], by simp [cmdShapes]⟩
          · exact ⟨[(p, setPassArgv p), (p, eraseArgv p)],
              by simp [hr, hh, hsse], by simp [cmdShapes]⟩
          · rcases wipeWithShred_eq oracle p
                (tr ++ [(p, setPassArgv p), (p, eraseArgv p), (p, disableArgv p)]) with ⟨r, hw⟩
            cases r <;>
              exact ⟨[(p, setPassArgv p), (p, eraseArgv p), (p, disableArgv p),
                  (p, shredArgv p)],
                by simp [hr, hh, hsse, hw], by simp [cmdShapes]⟩
    · exact ⟨[], by simp [hn, hs], by simp⟩

end Wiping
namespace Wiping

theorem runLoop_spec (oracle : Oracle) (rot : RotFS) (passes : Nat)
    (fs : String → PathStat) (cancelAt : Option Nat) :
    ∀ (devices : List (Option String)) (i : Nat) (tr : Trace)
      (wiped : List String) (methods : List (String × String)),
    ∃ δtr δw,
      (runLoop oracle rot passes fs cancelAt devices i tr wiped methods).1
        = tr ++ δtr ∧
      (runLoop oracle rot passes fs cancelAt devices i tr wiped methods).2.1
        = wiped ++ δw ∧
      δw.map some = devices.take δw.length ∧
      (∀ e ∈ δtr, fs e.1 = .blockDev ∧
        some e.1 ∈ devices.take (δw.length + 1) ∧ e.2 ∈ cmdShapes e.1) ∧
      ((runLoop oracle rot passes fs cancelAt devices i tr wiped
          methods).2.2.2 = .ok () →
        δw.length = devices.length ∧
        ∀ d ∈ devices, ∃ q, d = some q ∧ fs q = .blockDev) := by
  intro devices
  induction devices with
  | nil =>
    intro i tr wiped methods
    exact ⟨[], [], by simp [runLoop], by simp [runLoop], by simp, by simp,
      by simp [runLoop]⟩
  | cons d rest ih =>
    intro i tr wiped methods
    by_cases hc : cancelled cancelAt i
    · refine ⟨[], [], ?_, ?_, by simp, by simp, ?_⟩ <;> simp [runLoop, hc]
    · cases d with
      | none =>
        refine ⟨[], [], ?_, ?_, by simp, by simp, ?_⟩ <;> simp [runLoop, hc]
      | some p =>
        by_cases hpe : p = ""
        · refine ⟨[], [], ?_, ?_, by simp, by simp, ?_⟩ <;>
            simp [runLoop, hc, hpe]
        · cases hfs : fs p with
          | absent =>
            refine ⟨[], [], ?_, ?_, by simp, by simp, ?_⟩ <;>
              simp [runLoop, hc, hpe, hfs]
          | otherFile =>
            refine ⟨[], [], ?_, ?_, by simp, by simp, ?_⟩ <;>
              simp [runLoop, hc, hpe, hfs]
          | blockDev =>
            rcases hw : wipeDevice oracle rot passes p tr methods with
              ⟨tr1, m1, r1⟩
            obtain ⟨δ, hδ1, hδ2⟩ :=
              wipeDevice_trace oracle rot passes p tr methods
            rw [hw] at hδ1
            dsimp only at hδ1
            cases r1 with
            | error e =>
              have hstep : runLoop oracle rot passes fs cancelAt
                  (some p :: rest) i tr wiped methods =
                  (tr1, wiped, m1, .error e) := by
                simp [runLoop, hc, hpe, hfs, hw]
              refine ⟨δ, [], ?_, ?_, by simp, ?_, ?_⟩
              · rw [hstep]; exact hδ1
              · rw [hstep]; simp
              · intro x hx
                obtain ⟨hx1, hx2⟩ := hδ2 x hx
                exact ⟨hx1 ▸ hfs, by simp [hx1], hx1 ▸ hx2⟩
              · rw [hstep]; simp
            | ok u =>
              cases u
              obtain ⟨δtr', δw', ih1, ih2, ih3, ih4, ih5⟩ :=
                ih (i + 1) tr1 (wiped ++ [p]) m1
              have hstep : runLoop oracle rot passes fs cancelAt
                  (some p :: rest) i tr wiped methods =
                  runLoop oracle rot passes fs cancelAt rest (i + 1) tr1
                    (wiped ++ [p]) m1 := by
                simp [runLoop, hc, hpe, hfs, hw]
              refine ⟨δ ++ δtr', p :: δw', ?_, ?_, ?_, ?_, ?_⟩
              · rw [hstep, ih1, hδ1, List.append_assoc]
              · rw [hstep, ih2]; simp
              · simp [ih3]
              · intro x hx
                rcases List.mem_append.mp hx with hx | hx
                · obtain ⟨hx1, hx2⟩ := hδ2 x hx
                  refine ⟨hx1 ▸ hfs, ?_, hx1 ▸ hx2⟩
                  rw [hx1]
                  simp
                · obtain ⟨hx1, hx2, hx3⟩ := ih4 x hx
                  refine ⟨hx1, ?_, hx3⟩
                  simp only [List.length_cons, List.take_succ_cons,
                    List.mem_cons]
                  exact Or.inr hx2
              · rw [hstep]
                intro hok
                obtain ⟨hl, hd⟩ := ih5 hok
                refine ⟨by simp [hl], ?_⟩
                intro d hd'
                rcases List.mem_cons.mp hd' with rfl | hd'
                · exact ⟨p, rfl, hfs⟩
                · exact hd d hd'

end Wiping
namespace Wiping

theorem run_spec (oracle : Oracle) (rot : RotFS) (passes : Nat)
    (fs : String → PathStat) (cancelAt : Option Nat)
    (devices : List (Option String)) :
    (run oracle rot passes fs cancelAt devices).trace =
      (runLoop oracle rot passes fs cancelAt devices 0 [] [] []).1 ∧
    (run oracle rot passes fs cancelAt devices).report.devicesWiped =
      (runLoop oracle rot passes fs cancelAt devices 0 [] [] []).2.1 ∧
    (run oracle rot passes fs cancelAt devices).report.devicesTargeted =
      devices ∧
    ((run oracle rot passes fs cancelAt devices).report.status = "Success" ↔
      (runLoop oracle rot passes fs cancelAt devices 0 [] [] []).2.2.2 =
        .ok ()) ∧
    ((run oracle rot passes fs cancelAt devices).report.status = "Failed" ↔
      (runLoop oracle rot passes fs cancelAt devices 0 [] [] []).2.2.2 ≠
        .ok ()) := by
  rcases h : runLoop oracle rot passes fs cancelAt devices 0 [] [] [] with
    ⟨tr, w, m, r⟩
  cases r with
  | ok u => cases u; simp [run, h]
  | error e =>
    refine ⟨by simp [run, h], by simp [run, h], by simp [run, h], ?_, ?_⟩ <;>
      simp [run, h]

theorem category_nvme_iff (p : String) :
    category p = .nvme ↔ strContains p "nvme" = true := by
  unfold category
  by_cases h : strContains p "nvme" <;> by_cases h2 : strContains p "sd" <;>
    simp [h, h2]

theorem category_sata_iff (p : String) :
    category p = .sata ↔
      (strContains p "nvme" = false ∧ strContains p "sd" = true) := by
  unfold category
  by_cases h : strContains p "nvme" <;> by_cases h2 : strContains p "sd" <;>
    simp [h, h2]

theorem category_other_iff (p : String) :
    category p = .other ↔
      (strContains p "nvme" = false ∧ strContains p "sd" = false) := by
  unfold category
  by_cases h : strContains p "nvme" <;> by_cases h2 : strContains p "sd" <;>
    simp [h, h2]

end Wiping
namespace Wiping

theorem wipeDevice_nvme_attempts (oracle : Oracle) (rot : RotFS)
    (passes : Nat) (p : String) (hn : strContains p "nvme" = true) :
    ((attempts (wipeDevice oracle rot passes p [] []).1 = [.sanitize] ∧
        (wipeDevice oracle rot passes p [] []).2.2 = .ok ()) ∨
      attempts (wipeDevice oracle rot passes p [] []).1 =
        [.sanitize, .format]) ∧
    ((wipeDevice oracle rot passes p [] []).2.2 ≠ .ok () →
      attempts (wipeDevice oracle rot passes p [] []).1 =
        [.sanitize, .format]) ∧
    Method.overwrite ∉ attempts (wipeDevice oracle rot passes p [] []).1 := by
  cases h1 : oracle [] (sanitizeArgv p) with
  | ok =>
    have hres : wipeDevice oracle rot passes p [] [] =
        ([(p, sanitizeArgv p)],
          dictSet [] p "NVMe Sanitize (Cryptographic Erase)", .ok ()) := by
      simp [wipeDevice, runCommand, h1, hn]
    rw [hres]
    refine ⟨Or.inl ⟨?_, rfl⟩, ?_, ?_⟩
    · simp [attempts, methodOfArgv, sanitizeArgv, dedupAdj]
    · intro h; exact absurd rfl h
    · simp [attempts, methodOfArgv, sanitizeArgv, dedupAdj]
  | err =>
    cases h2 : oracle [(p, sanitizeArgv p)] (formatArgv p) <;>
    · have hres : (wipeDevice oracle rot passes p [] []).1 =
          [(p, sanitizeArgv p), (p, formatArgv p)] := by
        simp [wipeDevice, runCommand, h1, h2, hn]
      rw [hres]
      refine ⟨Or.inr ?_, fun _ => ?_, ?_⟩ <;>
        simp [attempts, methodOfArgv, sanitizeArgv, formatArgv, dedupAdj]
  | timeout =>
    cases h2 : oracle [(p, sanitizeArgv p)] (formatArgv p) <;>
    · have hres : (wipeDevice oracle rot passes p [] []).1 =
          [(p, sanitizeArgv p), (p, formatArgv p)] := by
        simp [wipeDevice, runCommand, h1, h2, hn]
      rw [hres]
      refine ⟨Or.inr ?_, fun _ => ?_, ?_⟩ <;>
        simp [attempts, methodOfArgv, sanitizeArgv, formatArgv, dedupAdj]

end Wiping
namespace Wiping

theorem wipeDevice_sata_attempts (oracle : Oracle) (rot : RotFS)
    (passes : Nat) (p : String) (s : String)
    (hn : strContains p "nvme" = false) (hs : strContains p "sd" = true)
    (hr : rot (rotPath p) = some s) :
    ((pyStrip s == "1") = true →
      attempts (wipeDevice oracle rot passes p [] []).1 = [.overwrite]) ∧
    ((pyStrip s == "1") = false →
      (attempts (wipeDevice oracle rot passes p [] []).1 = [.secureErase] ∧
        (wipeDevice oracle rot passes p [] []).2.2 = .ok ()) ∨
      attempts (wipeDevice oracle rot passes p [] []).1 =
        [.secureErase, .overwrite]) := by
  by_cases hh : (pyStrip s == "1") = true
  · refine ⟨fun _ => ?_, fun h => absurd hh (by simp [h])⟩
    cases h3 : oracle [] (shredArgv p) <;>
    · have hres : (wipeDevice oracle rot passes p [] []).1 =
          [(p, shredArgv p)] := by
        simp [wipeDevice, wipeWithShred, runCommand, hn, hs, hr, hh, h3]
      rw [hres]
      simp [attempts, methodOfArgv, shredArgv, dedupAdj]
  · simp only [Bool.not_eq_true] at hh
    refine ⟨fun h => absurd h (by simp [hh]), fun _ => ?_⟩
    rcases sse_cases oracle p [] with ⟨e, hsse⟩ | hsse | ⟨e, hsse⟩
    · refine Or.inr ?_
      cases h3 : oracle [(p, setPassArgv p)] (shredArgv p) <;>
      · have hres : (wipeDevice oracle rot passes p [] []).1 =
            [(p, setPassArgv p), (p, shredArgv p)] := by
          simp [wipeDevice, wipeWithShred, runCommand, hn, hs, hr, hh, hsse,
            h3]
        rw [hres]
        simp [attempts, methodOfArgv, setPassArgv, shredArgv, dedupAdj]
    · refine Or.inl ⟨?_, ?_⟩
      · have hres : (wipeDevice oracle rot passes p [] []).1 =
            [(p, setPassArgv p), (p, eraseArgv p)] := by
          simp [wipeDevice, hn, hs, hr, hh, hsse]
        rw [hres]
        simp [attempts, methodOfArgv, setPassArgv, eraseArgv, dedupAdj]
      · simp [wipeDevice, hn, hs, hr, hh, hsse]
    · refine Or.inr ?_
      cases h3 : oracle [(p, setPassArgv p), (p, eraseArgv p),
          (p, disableArgv p)] (shredArgv p) <;>
      · have hres : (wipeDevice oracle rot passes p [] []).1 =
            [(p, setPassArgv p), (p, eraseArgv p), (p, disableArgv p),
              (p, shredArgv p)] := by
          simp [wipeDevice, wipeWithShred, runCommand, hn, hs, hr, hh, hsse,
            h3]
        rw [hres]
        simp [attempts, methodOfArgv, setPassArgv, eraseArgv, disableArgv,
          shredArgv, dedupAdj]

theorem wipeDevice_other (oracle : Oracle) (rot : RotFS) (passes : Nat)
    (p : String) (hn : strContains p "nvme" = false)
    (hs : strContains p "sd" = false) :
    (wipeDevice oracle rot passes p [] []).1 = [] ∧
    (wipeDevice oracle rot passes p [] []).2.2 ≠ .ok () := by
  constructor <;> simp [wipeDevice, hn, hs]

end Wiping
namespace Wiping

/-- C1: for every device in the job's device list whose path does not
resolve to an existing block-special file, no external command is ever
dispatched for that device, and the job ends with status "Failed" (the
check raises before any wiping method is dispatched). -/
theorem safety_no_commands_for_non_block_device
    (oracle : Oracle) (rot : RotFS) (passes : Nat) (fs : String → PathStat)
    (cancelAt : Option Nat) (devices : List (Option String)) (p : String)
    (hmem : some p ∈ devices) (hblk : fs p ≠ .blockDev) :
    (∀ e ∈ (run oracle rot passes fs cancelAt devices).trace, e.1 ≠ p) ∧
    (run oracle rot passes fs cancelAt devices).report.status = "Failed" := by
  obtain ⟨htr, hw, htg, hsucc, hfail⟩ :=
    run_spec oracle rot passes fs cancelAt devices
  obtain ⟨δtr, δw, h1, h2, h3, h4, h5⟩ :=
    runLoop_spec oracle rot passes fs cancelAt devices 0 [] [] []
  constructor
  · intro e he heq
    rw [htr, h1] at he
    simp only [List.nil_append] at he
    obtain ⟨hb, -, -⟩ := h4 e he
    rw [heq] at hb
    exact hblk hb
  · rw [hfail]
    intro hok
    obtain ⟨-, hall⟩ := h5 hok
    obtain ⟨q, hq, hqb⟩ := hall (some p) hmem
    rw [Option.some_inj] at hq
    subst hq
    exact hblk hqb

/-- Witness for C1 at a concrete input: `/dev/sda` exists but is a regular
file, so the trace is empty of commands for it and the job fails. -/
theorem safety_no_commands_for_non_block_device_witness :
    (∀ e ∈ (run oracleAllOk rotHdd 1 fsOtherSda none
        [some "/dev/sda"]).trace, e.1 ≠ "/dev/sda") ∧
    (run oracleAllOk rotHdd 1 fsOtherSda none
      [some "/dev/sda"]).report.status = "Failed" :=
  safety_no_commands_for_non_block_device oracleAllOk rotHdd 1 fsOtherSda
    none [some "/dev/sda"] "/dev/sda" (by decide) (by decide)

/-- C2 counterexample: a job configured with `passes = 1` whose rotational
SATA device reaches the overwrite fallback invokes
`stdbuf -oL shred -n 2 -v -z /dev/sda` — not `shred -n 1 -v -z /dev/sda`
as the claim states — while recording "1-Pass Overwrite (shred)" as the
method used. -/
theorem shred_argv_counterexample :
    (run oracleAllOk rotHdd 1 fsBlkSda none [some "/dev/sda"]).trace =
      [("/dev/sda",
        ["stdbuf", "-oL", "shred", "-n", "2", "-v", "-z", "/dev/sda"])] ∧
    (¬ ∃ e ∈ (run oracleAllOk rotHdd 1 fsBlkSda none
        [some "/dev/sda"]).trace,
      e.2 = ["shred", "-n", "1", "-v", "-z", "/dev/sda"]) ∧
    (run oracleAllOk rotHdd 1 fsBlkSda none
      [some "/dev/sda"]).report.methodsUsed =
      [("/dev/sda", "1-Pass Overwrite (shred)")] := by
  refine ⟨rfl, by decide, rfl⟩

/-- C2 amended: every overwrite-fallback invocation is exactly
`stdbuf -oL shred -n 2 -v -z P`: the pass count is hardcoded to 2
regardless of the configured `passes`, and the invocation is wrapped in
`stdbuf -oL`. -/
theorem shred_invocation_exact (oracle : Oracle) (rot : RotFS)
    (passes : Nat) (fs : String → PathStat) (cancelAt : Option Nat)
    (devices : List (Option String)) :
    ∀ e ∈ (run oracle rot passes fs cancelAt devices).trace,
      e.2.head? = some "stdbuf" → e.2 = shredArgv e.1 := by
  obtain ⟨htr, -, -, -, -⟩ := run_spec oracle rot passes fs cancelAt devices
  obtain ⟨δtr, δw, h1, -, -, h4, -⟩ :=
    runLoop_spec oracle rot passes fs cancelAt devices 0 [] [] []
  intro e he hh
  rw [htr, h1] at he
  simp only [List.nil_append] at he
  obtain ⟨-, -, hshape⟩ := h4 e he
  simp only [cmdShapes, List.mem_cons, List.mem_singleton,
    List.not_mem_nil, or_false] at hshape
  rcases hshape with h | h | h | h | h | h <;> rw [h] at hh ⊢ <;>
    first
      | rfl
      | (exfalso
         simp [sanitizeArgv, formatArgv, setPassArgv, eraseArgv,
           disableArgv] at hh)

/-- Witness for the amended C2 at the counterexample's input. -/
theorem shred_invocation_exact_witness :
    (["stdbuf", "-oL", "shred", "-n", "2", "-v", "-z", "/dev/sda"] :
      List String) = shredArgv "/dev/sda" :=
  shred_invocation_exact oracleAllOk rotHdd 1 fsBlkSda none
    [some "/dev/sda"]
    ("/dev/sda", ["stdbuf", "-oL", "shred", "-n", "2", "-v", "-z",
      "/dev/sda"])
    (by decide) rfl

end Wiping
namespace Wiping

/-- C4: the cascade of destructive methods attempted per device is a pure
deterministic function of (category, rotational): NVMe gets sanitize then,
on failure, format erase, with no overwrite ever attempted and failure only
after both were attempted; a non-rotational SATA-like device gets ATA
secure erase then (only on its failure) overwrite; a rotational SATA-like
device gets overwrite only; any other category fails immediately with an
empty command trace. -/
theorem cascade_pure_function_of_category (oracle : Oracle) (rot : RotFS)
    (passes : Nat) (p : String) :
    (category p = .nvme →
      ((attempts (wipeDevice oracle rot passes p [] []).1 = [.sanitize] ∧
          (wipeDevice oracle rot passes p [] []).2.2 = .ok ()) ∨
        attempts (wipeDevice oracle rot passes p [] []).1 =
          [.sanitize, .format]) ∧
      ((wipeDevice oracle rot passes p [] []).2.2 ≠ .ok () →
        attempts (wipeDevice oracle rot passes p [] []).1 =
          [.sanitize, .format]) ∧
      Method.overwrite ∉ attempts (wipeDevice oracle rot passes p [] []).1) ∧
    (category p = .sata → ∀ s, rot (rotPath p) = some s →
      ((pyStrip s == "1") = true →
        attempts (wipeDevice oracle rot passes p [] []).1 = [.overwrite]) ∧
      ((pyStrip s == "1") = false →
        (attempts (wipeDevice oracle rot passes p [] []).1 =
            [.secureErase] ∧
          (wipeDevice oracle rot passes p [] []).2.2 = .ok ()) ∨
        attempts (wipeDevice oracle rot passes p [] []).1 =
          [.secureErase, .overwrite])) ∧
    (category p = .other →
      (wipeDevice oracle rot passes p [] []).1 = [] ∧
      (wipeDevice oracle rot passes p [] []).2.2 ≠ .ok ()) := by
  refine ⟨fun hc => ?_, fun hc s hr => ?_, fun hc => ?_⟩
  · exact wipeDevice_nvme_attempts oracle rot passes p
      ((category_nvme_iff p).mp hc)
  · obtain ⟨hn, hs⟩ := (category_sata_iff p).mp hc
    exact wipeDevice_sata_attempts oracle rot passes p s hn hs hr
  · obtain ⟨hn, hs⟩ := (category_other_iff p).mp hc
    exact wipeDevice_other oracle rot passes p hn hs

/-- Witness for C4: an NVMe device whose sanitize succeeds attempted only
the sanitize method and never overwrite. -/
theorem cascade_pure_function_of_category_witness :
    Method.overwrite ∉
      attempts (wipeDevice oracleAllOk rotHdd 1 "/dev/nvme0n1" [] []).1 :=
  ((cascade_pure_function_of_category oracleAllOk rotHdd 1
    "/dev/nvme0n1").1 (by decide)).2.2

/-- C5: for every job outcome, the wiped list is a prefix of the targeted
list in original order; on status Success it has the full length; and every
dispatched command targets one of the first (wiped + 1) devices, so no
device after the first failure is ever attempted. -/
theorem wiped_prefix_of_targeted (oracle : Oracle) (rot : RotFS)
    (passes : Nat) (fs : String → PathStat) (cancelAt : Option Nat)
    (devices : List (Option String)) :
    (∃ t, (run oracle rot passes fs cancelAt devices).report.devicesTargeted
        = ((run oracle rot passes fs cancelAt
            devices).report.devicesWiped).map some ++ t) ∧
    ((run oracle rot passes fs cancelAt devices).report.status = "Success" →
      (run oracle rot passes fs cancelAt
        devices).report.devicesWiped.length =
      (run oracle rot passes fs cancelAt
        devices).report.devicesTargeted.length) ∧
    (∀ e ∈ (run oracle rot passes fs cancelAt devices).trace,
      some e.1 ∈ (run oracle rot passes fs cancelAt
        devices).report.devicesTargeted.take
          ((run oracle rot passes fs cancelAt
            devices).report.devicesWiped.length + 1)) := by
  obtain ⟨htr, hw, htg, hsucc, -⟩ :=
    run_spec oracle rot passes fs cancelAt devices
  obtain ⟨δtr, δw, h1, h2, h3, h4, h5⟩ :=
    runLoop_spec oracle rot passes fs cancelAt devices 0 [] [] []
  have hww : (run oracle rot passes fs cancelAt
      devices).report.devicesWiped = δw := by
    rw [hw, h2]; simp
  refine ⟨⟨devices.drop δw.length, ?_⟩, ?_, ?_⟩
  · rw [htg, hww, h3]
    exact (List.take_append_drop _ _).symm
  · intro hsu
    rw [hsucc] at hsu
    obtain ⟨hl, -⟩ := h5 hsu
    rw [hww, htg, hl]
  · intro e he
    rw [htr, h1] at he
    simp only [List.nil_append] at he
    obtain ⟨-, hmem, -⟩ := h4 e he
    rw [htg, hww]
    exact hmem

/-- Witness for C5 at a concrete successful single-device job. -/
theorem wiped_prefix_of_targeted_witness :
    ∃ t, (run oracleAllOk rotHdd 1 fsBlkSda none
        [some "/dev/sda"]).report.devicesTargeted =
      ((run oracleAllOk rotHdd 1 fsBlkSda none
        [some "/dev/sda"]).report.devicesWiped).map some ++ t :=
  (wiped_prefix_of_targeted oracleAllOk rotHdd 1 fsBlkSda none
    [some "/dev/sda"]).1

/-- C6 counterexample: when the security-set-pass step fails for an SSD,
no security-disable command is issued (contrary to the claim); the device
falls directly back to the overwrite. -/
theorem setpass_failure_no_disable_counterexample :
    (run oracleSetPassFail rotSsd 1 fsBlkSda none [some "/dev/sda"]).trace =
      [("/dev/sda", setPassArgv "/dev/sda"),
        ("/dev/sda", shredArgv "/dev/sda")] ∧
    ¬ ∃ e ∈ (run oracleSetPassFail rotSsd 1 fsBlkSda none
        [some "/dev/sda"]).trace, e.2 = disableArgv "/dev/sda" := by
  exact ⟨rfl, by decide⟩

/-- C6 amended: for a non-rotational SATA-like device, only a failure of
the security-erase step itself triggers the security-disable command
before re-raising; a set-pass failure propagates without any disable
attempt.  In both failure cases the device falls back to the multi-pass
overwrite. -/
theorem disable_only_after_erase_failure (oracle : Oracle) (rot : RotFS)
    (passes : Nat) (p : String) (s : String)
    (hn : strContains p "nvme" = false) (hs : strContains p "sd" = true)
    (hr : rot (rotPath p) = some s) (hh : (pyStrip s == "1") = false) :
    (oracle [] (setPassArgv p) = .err →
      (wipeDevice oracle rot passes p [] []).1 =
        [(p, setPassArgv p), (p, shredArgv p)]) ∧
    (oracle [] (setPassArgv p) = .ok →
      oracle [(p, setPassArgv p)] (eraseArgv p) = .err →
      (wipeDevice oracle rot passes p [] []).1 =
        [(p, setPassArgv p), (p, eraseArgv p), (p, disableArgv p),
          (p, shredArgv p)]) := by
  constructor
  · intro h1
    cases h3 : oracle [(p, setPassArgv p)] (shredArgv p) <;>
      simp [wipeDevice, wipeSataSecureErase, wipeWithShred, runCommand,
        hn, hs, hr, hh, h1, h3]
  · intro h1 h2
    cases hd : oracle [(p, setPassArgv p), (p, eraseArgv p)]
        (disableArgv p) <;>
      cases h3 : oracle [(p, setPassArgv p), (p, eraseArgv p),
          (p, disableArgv p)] (shredArgv p) <;>
        simp [wipeDevice, wipeSataSecureErase, wipeWithShred, runCommand,
          hn, hs, hr, hh, h1, h2, hd, h3]

/-- Witness for the amended C6: an erase failure on `/dev/sda` issues
set-pass, erase, disable, then the overwrite fallback, in that order. -/
theorem disable_only_after_erase_failure_witness :
    (wipeDevice oracleEraseFail rotSsd 1 "/dev/sda" [] []).1 =
      [("/dev/sda", setPassArgv "/dev/sda"),
        ("/dev/sda", eraseArgv "/dev/sda"),
        ("/dev/sda", disableArgv "/dev/sda"),
        ("/dev/sda", shredArgv "/dev/sda")] :=
  (disable_only_after_erase_failure oracleEraseFail rotSsd 1 "/dev/sda" "0"
    (by decide) (by decide) (by decide) (by decide)).2 (by decide)
    (by decide)

/-- C10: a job started with an empty device list completes with report
status "Success", message "Wipe completed successfully.", and empty
targeted and wiped lists. -/
theorem empty_batch_reported_as_success (oracle : Oracle) (rot : RotFS)
    (passes : Nat) (fs : String → PathStat) (cancelAt : Option Nat) :
    run oracle rot passes fs cancelAt [] =
      { trace := []
        report :=
          { devicesTargeted := []
            devicesWiped := []
            status := "Success"
            message := "Wipe completed successfully."
            methodsUsed := [] }
        emittedSuccess := true
        emittedMessage := "Success" } := rfl

end Wiping
namespace Certs

theorem append_ne (s t u v : String) (i : Nat) (h1 : i < s.data.length)
    (h2 : i < t.data.length) (h3 : s.data[i]? ≠ t.data[i]?) :
    s ++ u ≠ t ++ v := by
  intro h
  have h4 : (s.data ++ u.data)[i]? = (t.data ++ v.data)[i]? := by
    have h5 : (s ++ u).data = (t ++ v).data := by rw [h]
    rw [show (s ++ u).data = s.data ++ u.data from rfl,
      show (t ++ v).data = t.data ++ v.data from rfl] at h5
    rw [h5]
  rw [List.getElem?_append_left h1, List.getElem?_append_left h2] at h4
  exact h3 h4

theorem unsignedPath_ne_signedPath (u v : String) :
    unsignedPath u ≠ signedPath v :=
  append_ne _ _ _ _ 12 (by decide) (by decide) (by decide)

theorem jsonPath_ne_unsignedPath (u v : String) :
    jsonPath u ≠ unsignedPath v :=
  append_ne _ _ _ _ 0 (by decide) (by decide) (by decide)

theorem jsonPath_ne_signedPath (u v : String) :
    jsonPath u ≠ signedPath v :=
  append_ne _ _ _ _ 0 (by decide) (by decide) (by decide)

theorem FS.write_self (fs : FS) (p : String) (v : FileData) :
    FS.write fs p v p = some v := by
  simp [FS.write]

theorem FS.write_ne (fs : FS) (p q : String) (v : FileData) (h : q ≠ p) :
    FS.write fs p v q = fs q := by
  simp [FS.write, h]

theorem FS.del_self (fs : FS) (p : String) : FS.del fs p p = none := by
  simp [FS.del]

theorem FS.del_ne (fs : FS) (p q : String) (h : q ≠ p) :
    FS.del fs p q = fs q := by
  simp [FS.del, h]

theorem sign_pdf_fs_ne (outcome : SignOutcome)
    (inputPdf outputPdf p12File q : String) (fs : FS)
    (hq : q ≠ outputPdf) :
    (sign_pdf outcome inputPdf outputPdf p12File fs).1 q = fs q := by
  unfold sign_pdf
  repeat' split
  all_goals first | rfl | simp [FS.write, hq]

end Certs
namespace Certs

theorem richa_result_ok (env : Env) (p12File : String)
    (d : List (String × JVal)) (u : String) (fs0 : FS) :
    (richa env p12File d u fs0).result = .ok () := rfl

theorem richa_log_success_line (env : Env) (p12File : String)
    (d : List (String × JVal)) (u : String) (fs0 : FS) :
    ("✓ PDF signed successfully: " ++ signedPath u) ∈
      (richa env p12File d u fs0).log := by
  unfold richa
  dsimp only
  simp [List.mem_append]

theorem richa_fs_json (env : Env) (p12File : String)
    (d : List (String × JVal)) (u : String) (fs0 : FS) :
    (richa env p12File d u fs0).fs (jsonPath u) =
      some (.jsonText (dumpVal (.obj (objSet d "report_uuid" (.str u)))
        0)) := by
  unfold richa
  dsimp only
  split
  · dsimp only
    rw [FS.del_ne _ _ _ (jsonPath_ne_unsignedPath u u),
      sign_pdf_fs_ne _ _ _ _ _ _ (jsonPath_ne_signedPath u u),
      FS.write_ne _ _ _ _ (jsonPath_ne_unsignedPath u u), FS.write_self]
  · dsimp only
    rw [sign_pdf_fs_ne _ _ _ _ _ _ (jsonPath_ne_signedPath u u),
      FS.write_ne _ _ _ _ (jsonPath_ne_unsignedPath u u), FS.write_self]

end Certs
namespace Certs

theorem ensure_identity_fs_ne (seed : Nat) (p12File q : String) (fs : FS)
    (h : q ≠ p12File) :
    (ensure_identity seed p12File fs).1 q = fs q := by
  unfold ensure_identity
  split
  · dsimp only; rw [FS.write_ne _ _ _ _ h]
  · rfl

theorem ensure_identity_absent (seed : Nat) (p12File : String) (fs : FS)
    (h : fs p12File = none) :
    (ensure_identity seed p12File fs).1 p12File = some (create_p12 seed) := by
  unfold ensure_identity
  rw [h]
  exact FS.write_self _ _ _

theorem ensure_identity_present (seed : Nat) (p12File : String) (fs : FS)
    (b : FileData) (h : fs p12File = some b) :
    (ensure_identity seed p12File fs).1 p12File = some b := by
  unfold ensure_identity
  rw [h]
  exact h

theorem richa_fs_p12 (env : Env) (p12File : String)
    (d : List (String × JVal)) (u : String) (fs0 : FS)
    (h0 : p12File ≠ jsonPath u) (h1 : p12File ≠ unsignedPath u)
    (h2 : p12File ≠ signedPath u) :
    (richa env p12File d u fs0).fs p12File =
      (ensure_identity env.p12Seed p12File fs0).1 p12File := by
  unfold richa
  dsimp only
  split
  · dsimp only
    rw [FS.del_ne _ _ _ h1, sign_pdf_fs_ne _ _ _ _ _ _ h2,
      FS.write_ne _ _ _ _ h1, FS.write_ne _ _ _ _ h0]
  · dsimp only
    rw [sign_pdf_fs_ne _ _ _ _ _ _ h2, FS.write_ne _ _ _ _ h1,
      FS.write_ne _ _ _ _ h0]

theorem sign_pdf_noop (outcome : SignOutcome)
    (inputPdf outputPdf p12File : String) (fs : FS)
    (ho : outcome = .loadFail ∨ outcome = .prepFail) :
    (sign_pdf outcome inputPdf outputPdf p12File fs).1 = fs := by
  rcases ho with rfl | rfl <;>
  · unfold sign_pdf
    repeat' split
    all_goals first | rfl | (exfalso; simp_all)

end Certs
namespace Certs

/-- C3 counterexample: with the signer failing to load the bundle (wrong
passphrase), `richa` returns normally (no SigningError — `sign_pdf` catches
every exception and returns None) and prints the success line; the
unsigned document and the JSON report are left on disk and no signed
document exists. -/
theorem signing_error_counterexample :
    (richa ⟨.loadFail, 0⟩ "certificate.p12" dSample "u1" fsEmpty).result =
      .ok () ∧
    ("✓ PDF signed successfully: " ++ signedPath "u1") ∈
      (richa ⟨.loadFail, 0⟩ "certificate.p12" dSample "u1" fsEmpty).log ∧
    (richa ⟨.loadFail, 0⟩ "certificate.p12" dSample "u1" fsEmpty).fs
      (unsignedPath "u1") =
      some (.unsignedPdf (objSet dSample "report_uuid" (.str "u1"))) ∧
    (richa ⟨.loadFail, 0⟩ "certificate.p12" dSample "u1" fsEmpty).fs
      (signedPath "u1") = none ∧
    (richa ⟨.loadFail, 0⟩ "certificate.p12" dSample "u1" fsEmpty).fs
      (jsonPath "u1") =
      some (.jsonText
        (dumpVal (.obj (objSet dSample "report_uuid" (.str "u1"))) 0)) :=
  ⟨rfl, richa_log_success_line _ _ _ _ _, rfl, rfl, rfl⟩

/-- C3 amended: when signing fails before the output file is created (for
example a wrong PKCS#12 passphrase), no error reaches `richa`'s caller:
`sign_pdf` swallows the exception and `richa` completes normally, printing
the success line.  The unsigned rendered document does remain on disk and
the already-written JSON report is unaffected, and no signed document
appears (provided no stale signed artifact pre-existed). -/
theorem signing_failure_swallowed (env : Env) (p12File : String)
    (d : List (String × JVal)) (u : String) (fs0 : FS)
    (ho : env.signOutcome = .loadFail ∨ env.signOutcome = .prepFail)
    (hstale : fs0 (signedPath u) = none)
    (hp : p12File ≠ signedPath u) :
    (richa env p12File d u fs0).result = .ok () ∧
    ("✓ PDF signed successfully: " ++ signedPath u) ∈
      (richa env p12File d u fs0).log ∧
    (richa env p12File d u fs0).fs (unsignedPath u) =
      some (.unsignedPdf (objSet d "report_uuid" (.str u))) ∧
    (richa env p12File d u fs0).fs (jsonPath u) =
      some (.jsonText (dumpVal (.obj (objSet d "report_uuid" (.str u)))
        0)) ∧
    (richa env p12File d u fs0).fs (signedPath u) = none := by
  refine ⟨richa_result_ok _ _ _ _ _, richa_log_success_line _ _ _ _ _, ?_,
    richa_fs_json _ _ _ _ _, ?_⟩ <;>
  · unfold richa
    dsimp only
    have hnoop := sign_pdf_noop env.signOutcome (unsignedPath u)
      (signedPath u) p12File
      ((FS.write (ensure_identity env.p12Seed p12File fs0).1 (jsonPath u)
        (.jsonText (dumpVal (.obj (objSet d "report_uuid" (.str u))) 0))).write
        (unsignedPath u) (.unsignedPdf (objSet d "report_uuid" (.str u)))) ho
    have hsig : (sign_pdf env.signOutcome (unsignedPath u) (signedPath u)
        p12File
        ((FS.write (ensure_identity env.p12Seed p12File fs0).1 (jsonPath u)
          (.jsonText (dumpVal (.obj (objSet d "report_uuid" (.str u))) 0))).write
          (unsignedPath u) (.unsignedPdf (objSet d "report_uuid" (.str u))))).1
        (signedPath u) = none := by
      rw [hnoop, FS.write_ne _ _ _ _ (unsignedPath_ne_signedPath u u).symm,
        FS.write_ne _ _ _ _ (jsonPath_ne_signedPath u u).symm,
        ensure_identity_fs_ne _ _ _ _ hp.symm]
      exact hstale
    split
    · next v heq =>
      rw [hsig] at heq
      exact absurd heq (by simp)
    · next heq =>
      dsimp only
      first
        | (rw [hnoop]; exact FS.write_self _ _ _)
        | exact hsig

end Certs
namespace Certs

/-- Witness for the amended C3 at a concrete input: signing fails before
creating the output, `richa` returns normally and both the unsigned
document and JSON report survive. -/
theorem signing_failure_swallowed_witness :
    (richa ⟨.prepFail, 0⟩ "certificate.p12" dSample "u2" fsEmpty).result =
      .ok () ∧
    ("✓ PDF signed successfully: " ++ signedPath "u2") ∈
      (richa ⟨.prepFail, 0⟩ "certificate.p12" dSample "u2" fsEmpty).log ∧
    (richa ⟨.prepFail, 0⟩ "certificate.p12" dSample "u2" fsEmpty).fs
      (unsignedPath "u2") =
      some (.unsignedPdf (objSet dSample "report_uuid" (.str "u2"))) ∧
    (richa ⟨.prepFail, 0⟩ "certificate.p12" dSample "u2" fsEmpty).fs
      (jsonPath "u2") =
      some (.jsonText
        (dumpVal (.obj (objSet dSample "report_uuid" (.str "u2"))) 0)) ∧
    (richa ⟨.prepFail, 0⟩ "certificate.p12" dSample "u2" fsEmpty).fs
      (signedPath "u2") = none :=
  signing_failure_swallowed ⟨.prepFail, 0⟩ "certificate.p12" dSample "u2"
    fsEmpty (Or.inr rfl) rfl (by decide)

/-- C7: in every run of `richa` the unsigned intermediate document is
absent afterwards exactly when the signed document exists afterwards, and
the operator is never left with neither document. -/
theorem unsigned_deleted_iff_signed_exists (env : Env) (p12File : String)
    (d : List (String × JVal)) (u : String) (fs0 : FS) :
    ((richa env p12File d u fs0).fs (unsignedPath u) = none ↔
      ((richa env p12File d u fs0).fs (signedPath u)).isSome = true) ∧
    (((richa env p12File d u fs0).fs (unsignedPath u)).isSome = true ∨
      ((richa env p12File d u fs0).fs (signedPath u)).isSome = true) := by
  unfold richa
  dsimp only
  split
  · next v heq =>
    dsimp only
    constructor
    · rw [FS.del_self, FS.del_ne _ _ _ (unsignedPath_ne_signedPath u u).symm,
        heq]
      simp
    · right
      rw [FS.del_ne _ _ _ (unsignedPath_ne_signedPath u u).symm, heq]
      rfl
  · next heq =>
    dsimp only
    rw [heq, sign_pdf_fs_ne _ _ _ _ _ _ (unsignedPath_ne_signedPath u u),
      FS.write_self]
    simp

/-- C8: identity provisioning inside `richa` is create-if-absent and
idempotent: an existing bundle is never overwritten, a missing bundle is
created from the entropy drawn, and a second issuance against the same
bundle path leaves exactly the key material of the first in place. -/
theorem identity_provisioning_idempotent (env1 env2 : Env)
    (p12File : String) (d1 d2 : List (String × JVal)) (u1 u2 : String)
    (fs0 : FS)
    (h1 : p12File ≠ jsonPath u1) (h2 : p12File ≠ unsignedPath u1)
    (h3 : p12File ≠ signedPath u1)
    (h4 : p12File ≠ jsonPath u2) (h5 : p12File ≠ unsignedPath u2)
    (h6 : p12File ≠ signedPath u2) :
    (∀ b, fs0 p12File = some b →
      (richa env1 p12File d1 u1 fs0).fs p12File = some b) ∧
    (fs0 p12File = none →
      (richa env1 p12File d1 u1 fs0).fs p12File =
        some (create_p12 env1.p12Seed)) ∧
    (richa env2 p12File d2 u2 (richa env1 p12File d1 u1 fs0).fs).fs
      p12File = (richa env1 p12File d1 u1 fs0).fs p12File := by
  have e1 := richa_fs_p12 env1 p12File d1 u1 fs0 h1 h2 h3
  have e2 := richa_fs_p12 env2 p12File d2 u2
    (richa env1 p12File d1 u1 fs0).fs h4 h5 h6
  refine ⟨?_, ?_, ?_⟩
  · intro b hb
    rw [e1]
    exact ensure_identity_present _ _ _ _ hb
  · intro hn
    rw [e1]
    exact ensure_identity_absent _ _ _ hn
  · rw [e2]
    cases hb : fs0 p12File with
    | none =>
      have hfirst : (richa env1 p12File d1 u1 fs0).fs p12File =
          some (create_p12 env1.p12Seed) := by
        rw [e1]; exact ensure_identity_absent _ _ _ hb
      rw [ensure_identity_present _ _ _ _ hfirst, hfirst]
    | some b =>
      have hfirst : (richa env1 p12File d1 u1 fs0).fs p12File = some b := by
        rw [e1]; exact ensure_identity_present _ _ _ _ hb
      rw [ensure_identity_present _ _ _ _ hfirst, hfirst]

/-- Witness for C8: two successive issuances with different entropy seeds
against the same bundle path leave the first issuance's key material in
place. -/
theorem identity_provisioning_idempotent_witness :
    (richa ⟨.ok, 5⟩ "certificate.p12" dSample "u2"
      (richa ⟨.ok, 3⟩ "certificate.p12" dSample "u1" fsEmpty).fs).fs
      "certificate.p12" =
    (richa ⟨.ok, 3⟩ "certificate.p12" dSample "u1" fsEmpty).fs
      "certificate.p12" :=
  (identity_provisioning_idempotent ⟨.ok, 3⟩ ⟨.ok, 5⟩ "certificate.p12"
    dSample dSample "u1" "u2" fsEmpty (by decide) (by decide) (by decide)
    (by decide) (by decide) (by decide)).2.2

/-- C9: certificate JSON persistence is deterministic: two issuances with
the same `report_uuid` and identical input data write byte-identical JSON
to the same uuid-named file, the second overwriting the first, independent
of the rest of the environment. -/
theorem json_persistence_deterministic (env1 env2 : Env)
    (p12File : String) (d : List (String × JVal)) (u : String) (fs0 : FS) :
    (richa env1 p12File d u fs0).fs (jsonPath u) =
      some (.jsonText (dumpVal (.obj (objSet d "report_uuid" (.str u)))
        0)) ∧
    (richa env2 p12File d u (richa env1 p12File d u fs0).fs).fs
      (jsonPath u) =
      some (.jsonText (dumpVal (.obj (objSet d "report_uuid" (.str u)))
        0)) :=
  ⟨richa_fs_json env1 p12File d u fs0,
    richa_fs_json env2 p12File d u (richa env1 p12File d u fs0).fs⟩

end Certs
namespace Wiping

/-- Witness for C10 at a concrete environment. -/
theorem empty_batch_reported_as_success_witness :
    run oracleAllOk rotHdd 1 fsBlkSda none [] =
      { trace := []
        report :=
          { devicesTargeted := []
            devicesWiped := []
            status := "Success"
            message := "Wipe completed successfully."
            methodsUsed := [] }
        emittedSuccess := true
        emittedMessage := "Success" } :=
  empty_batch_reported_as_success oracleAllOk rotHdd 1 fsBlkSda none

end Wiping

namespace Certs

/-- Witness for C7 at a concrete issuance in which signing succeeds. -/
theorem unsigned_deleted_iff_signed_exists_witness :
    ((richa ⟨.ok, 0⟩ "certificate.p12" dSample "u1" fsEmpty).fs
        (unsignedPath "u1") = none ↔
      ((richa ⟨.ok, 0⟩ "certificate.p12" dSample "u1" fsEmpty).fs
        (signedPath "u1")).isSome = true) ∧
    (((richa ⟨.ok, 0⟩ "certificate.p12" dSample "u1" fsEmpty).fs
        (unsignedPath "u1")).isSome = true ∨
      ((richa ⟨.ok, 0⟩ "certificate.p12" dSample "u1" fsEmpty).fs
        (signedPath "u1")).isSome = true) :=
  unsigned_deleted_iff_signed_exists ⟨.ok, 0⟩ "certificate.p12" dSample
    "u1" fsEmpty

/-- Witness for C9: two concrete issuances in different environments write
the identical JSON bytes to the uuid-named file. -/
theorem json_persistence_deterministic_witness :
    (richa ⟨.ok, 1⟩ "certificate.p12" dSample "u1" fsEmpty).fs
      (jsonPath "u1") =
      some (.jsonText
        (dumpVal (.obj (objSet dSample "report_uuid" (.str "u1"))) 0)) ∧
    (richa ⟨.prepFail, 2⟩ "certificate.p12" dSample "u1"
      (richa ⟨.ok, 1⟩ "certificate.p12" dSample "u1" fsEmpty).fs).fs
      (jsonPath "u1") =
      some (.jsonText
        (dumpVal (.obj (objSet dSample "report_uuid" (.str "u1"))) 0)) :=
  json_persistence_deterministic ⟨.ok, 1⟩ ⟨.prepFail, 2⟩ "certificate.p12"
    dSample "u1" fsEmpty

end Certs
